import Mathlib

/-!
# GitHub gist stars badge service

A shallow embedding of `services/github/github-gist-stars.service.js`:
the response schema, the static class members, and the `render`, `fetch`,
`transform` and `handle` operations, followed by the properties proved about
them.

JavaScript values are embedded as a small value type; a thrown exception is
the `error` side of `Except`; an `await` is sequencing in `Except`.
-/

/-! ## Values -/

/-- JavaScript values reachable in this module: the JSON values plus
`undefined` (the result of reading a property that is not there).  Numbers are
integer-valued; fractional numbers and `NaN` are outside the model. -/
inductive JsValue where
  | undefined : JsValue
  | null : JsValue
  | bool (b : Bool) : JsValue
  | num (n : Int) : JsValue
  | str (s : String) : JsValue
  | arr (items : List JsValue) : JsValue
  | obj (fields : List (String × JsValue)) : JsValue

mutual
/-- Decision procedure for equality of values. -/
def JsValue.decEq : (a b : JsValue) → Decidable (a = b)
  | .undefined, .undefined => isTrue rfl
  | .undefined, .null => isFalse nofun
  | .undefined, .bool _ => isFalse nofun
  | .undefined, .num _ => isFalse nofun
  | .undefined, .str _ => isFalse nofun
  | .undefined, .arr _ => isFalse nofun
  | .undefined, .obj _ => isFalse nofun
  | .null, .undefined => isFalse nofun
  | .null, .null => isTrue rfl
  | .null, .bool _ => isFalse nofun
  | .null, .num _ => isFalse nofun
  | .null, .str _ => isFalse nofun
  | .null, .arr _ => isFalse nofun
  | .null, .obj _ => isFalse nofun
  | .bool _, .undefined => isFalse nofun
  | .bool _, .null => isFalse nofun
  | .bool x, .bool y =>
    if h : x = y then isTrue (congrArg JsValue.bool h)
    else isFalse (fun h2 => h (JsValue.bool.inj h2))
  | .bool _, .num _ => isFalse nofun
  | .bool _, .str _ => isFalse nofun
  | .bool _, .arr _ => isFalse nofun
  | .bool _, .obj _ => isFalse nofun
  | .num _, .undefined => isFalse nofun
  | .num _, .null => isFalse nofun
  | .num _, .bool _ => isFalse nofun
  | .num x, .num y =>
    if h : x = y then isTrue (congrArg JsValue.num h)
    else isFalse (fun h2 => h (JsValue.num.inj h2))
  | .num _, .str _ => isFalse nofun
  | .num _, .arr _ => isFalse nofun
  | .num _, .obj _ => isFalse nofun
  | .str _, .undefined => isFalse nofun
  | .str _, .null => isFalse nofun
  | .str _, .bool _ => isFalse nofun
  | .str _, .num _ => isFalse nofun
  | .str x, .str y =>
    if h : x = y then isTrue (congrArg JsValue.str h)
    else isFalse (fun h2 => h (JsValue.str.inj h2))
  | .str _, .arr _ => isFalse nofun
  | .str _, .obj _ => isFalse nofun
  | .arr _, .undefined => isFalse nofun
  | .arr _, .null => isFalse nofun
  | .arr _, .bool _ => isFalse nofun
  | .arr _, .num _ => isFalse nofun
  | .arr _, .str _ => isFalse nofun
  | .arr xs, .arr ys =>
    match JsValue.decEqItems xs ys with
    | isTrue h => isTrue (congrArg JsValue.arr h)
    | isFalse h => isFalse (fun h2 => h (JsValue.arr.inj h2))
  | .arr _, .obj _ => isFalse nofun
  | .obj _, .undefined => isFalse nofun
  | .obj _, .null => isFalse nofun
  | .obj _, .bool _ => isFalse nofun
  | .obj _, .num _ => isFalse nofun
  | .obj _, .str _ => isFalse nofun
  | .obj _, .arr _ => isFalse nofun
  | .obj xs, .obj ys =>
    match JsValue.decEqFields xs ys with
    | isTrue h => isTrue (congrArg JsValue.obj h)
    | isFalse h => isFalse (fun h2 => h (JsValue.obj.inj h2))
/-- Decision procedure for equality of array items. -/
def JsValue.decEqItems : (xs ys : List JsValue) → Decidable (xs = ys)
  | [], [] => isTrue rfl
  | [], _ :: _ => isFalse nofun
  | _ :: _, [] => isFalse nofun
  | x :: xs, y :: ys =>
    match JsValue.decEq x y, JsValue.decEqItems xs ys with
    | isTrue h1, isTrue h2 => isTrue (by rw [h1, h2])
    | isFalse h1, _ => isFalse (fun h => h1 (List.cons.inj h).1)
    | _, isFalse h2 => isFalse (fun h => h2 (List.cons.inj h).2)
/-- Decision procedure for equality of object fields. -/
def JsValue.decEqFields : (xs ys : List (String × JsValue)) → Decidable (xs = ys)
  | [], [] => isTrue rfl
  | [], _ :: _ => isFalse nofun
  | _ :: _, [] => isFalse nofun
  | (k, x) :: xs, (l, y) :: ys =>
    if hk : k = l then
      match JsValue.decEq x y, JsValue.decEqFields xs ys with
      | isTrue h1, isTrue h2 => isTrue (by rw [hk, h1, h2])
      | isFalse h1, _ => isFalse (fun h => h1 (Prod.mk.inj (List.cons.inj h).1).2)
      | _, isFalse h2 => isFalse (fun h => h2 (List.cons.inj h).2)
    else isFalse (fun h => hk (Prod.mk.inj (List.cons.inj h).1).1)
end

instance : DecidableEq JsValue := JsValue.decEq

/-- Errors that can be thrown while a request is served.  `NotFound` is the
framework error class constructed by `transform`, carrying the `prettyMessage`
it is given; `Validation` is the failure of schema validation; `Transport` is
a network or transport failure reported by the collaborator; `TypeError` is
the JavaScript runtime error of destructuring `null` or `undefined`. -/
inductive JsError where
  | NotFound (prettyMessage : String) : JsError
  | Validation : JsError
  | Transport (detail : String) : JsError
  | TypeError : JsError
  deriving DecidableEq

/-- Equality of results is decidable when it is for errors and values. -/
instance instDecidableEqExcept {ε α : Type} [DecidableEq ε] [DecidableEq α] :
    DecidableEq (Except ε α)
  | .ok a, .ok b =>
    if h : a = b then isTrue (congrArg Except.ok h)
    else isFalse (fun h2 => h (Except.ok.inj h2))
  | .error a, .error b =>
    if h : a = b then isTrue (congrArg Except.error h)
    else isFalse (fun h2 => h (Except.error.inj h2))
  | .ok _, .error _ => isFalse nofun
  | .error _, .ok _ => isFalse nofun

namespace JsValue

/-- Own property `v[k]` without the null check: `undefined` when the key is
absent or when `v` is not an object.  (None of the property names read by this
module exists on a primitive or on an array.) -/
def get (v : JsValue) (k : String) : JsValue :=
  match v with
  | .obj fields => (fields.lookup k).getD .undefined
  | _ => .undefined

/-- The values `null` and `undefined`, which cannot be destructured. -/
def isNullish : JsValue → Bool
  | .null => true
  | .undefined => true
  | _ => false

/-- JavaScript truthiness (`ToBoolean`), as tested by `!gist`. -/
def truthy : JsValue → Bool
  | .undefined => false
  | .null => false
  | .bool b => b
  | .num n => n != 0
  | .str s => s != ""
  | .arr _ => true
  | .obj _ => true

mutual
/-- String conversion of a value interpolated in a template literal.  A number
is printed by its decimal digits, as JavaScript does for integers below
10^21. -/
def toStr : JsValue → String
  | .undefined => "undefined"
  | .null => "null"
  | .bool true => "true"
  | .bool false => "false"
  | .num n => toString n
  | .str s => s
  | .arr items => joinItems items
  | .obj _ => "[object Object]"
/-- The comma-separated items of an array (`Array.prototype.join`): `null` and
`undefined` items contribute the empty string. -/
def joinItems : List JsValue → String
  | [] => ""
  | [x] => if x.isNullish then "" else toStr x
  | x :: y :: rest => (if x.isNullish then "" else toStr x) ++ "," ++ joinItems (y :: rest)
end

end JsValue

/-- Property read `v.k`, also one step of an object destructuring pattern:
throws `TypeError` when `v` is `null` or `undefined`. -/
def member (v : JsValue) (k : String) : Except JsError JsValue :=
  if v.isNullish then .error .TypeError else .ok (v.get k)

/-! ## Imported helpers -/

/-- Modelled from the spec: the magnitude formatter `metric` imported from
`services/text-formatters.js`, which is not among the sources.  The spec says
it "abbreviates large numbers, e.g. 1000 → 1k" and fixes the values
29 → "29", 999 → "999" and 1000 → "1k": a count below one thousand is printed
in decimal, a count from one thousand on is abbreviated to its thousands
followed by `k`.  The spec is silent on the digits kept for larger counts and
on arguments that are not numbers (left as their string conversion here);
nothing proved below depends on those. -/
def metric : JsValue → String
  | .num n =>
    if n.natAbs < 1000 then toString n
    else (if n < 0 then "-" else "") ++ toString (n.natAbs / 1000) ++ "k"
  | v => v.toStr

/-! ## Response schema

The Joi combinators used by the schema, as predicates on values, under Joi's
default options.  A key is optional unless marked `required`; `allowNull` is
`.allow(null)`; a number may be given as a string in numeric form, which Joi
converts; keys the schema does not name are not examined. -/

namespace Joi

/-- A validation rule: whether a value (or `undefined`, for an absent key) is
accepted. -/
abbrev Rule := JsValue → Bool

/-- The largest safe integer, `Number.MAX_SAFE_INTEGER` = 2^53 - 1. -/
def maxSafeInteger : Nat := 9007199254740991

/-- White space in the sense of the regular-expression class `\s`. -/
def isSpace (c : Char) : Bool :=
  let n := c.toNat
  n == 9 || n == 10 || n == 11 || n == 12 || n == 13 || n == 32 || n == 160 || n == 5760 ||
    (8192 ≤ n && n ≤ 8202) || n == 8232 || n == 8233 || n == 8239 || n == 8287 ||
    n == 12288 || n == 65279

/-- The value of a run of decimal digits. -/
def digitsValue (ds : List Char) : Nat :=
  ds.foldl (fun acc c => acc * 10 + (c.toNat - 48)) 0

/-- A string in numeric form, read exactly: its integer and fraction digits as
one integer, and the power of ten that scales it (the exponent less the number
of fraction digits). -/
structure Numeral where
  digits : Nat
  scale : Int
  deriving DecidableEq

/-- The exponent part of a numeral: `e` or `E`, an optional sign, and at least
one digit up to the end. -/
def exponentPart : List Char → Option Int
  | [] => some 0
  | c :: r =>
    if c == 'e' || c == 'E' then
      match r with
      | '+' :: ds =>
        if !ds.isEmpty && ds.all Char.isDigit then some (Int.ofNat (digitsValue ds)) else none
      | '-' :: ds =>
        if !ds.isEmpty && ds.all Char.isDigit then some (- Int.ofNat (digitsValue ds)) else none
      | ds =>
        if !ds.isEmpty && ds.all Char.isDigit then some (Int.ofNat (digitsValue ds)) else none
    else none

/-- The numeric form Joi converts from a string: optional white space, an
optional sign, digits with an optional fraction (or a fraction alone), an
optional exponent, optional white space.  `none` when the string has not that
form. -/
def numeral (s : String) : Option Numeral :=
  let trimmed := ((s.toList.dropWhile isSpace).reverse.dropWhile isSpace).reverse
  let unsigned :=
    match trimmed with
    | '+' :: r => r
    | '-' :: r => r
    | r => r
  let intPart := unsigned.takeWhile Char.isDigit
  let afterInt := unsigned.dropWhile Char.isDigit
  let fracPart :=
    match afterInt with
    | '.' :: r => r.takeWhile Char.isDigit
    | _ => []
  let afterFrac :=
    match afterInt with
    | '.' :: r => r.dropWhile Char.isDigit
    | r => r
  if intPart.isEmpty && fracPart.isEmpty then none
  else
    match exponentPart afterFrac with
    | some e => some { digits := digitsValue (intPart ++ fracPart), scale := e - fracPart.length }
    | none => none

/-- Whether the magnitude of a numeral is within the safe-integer range. -/
def Numeral.safe (x : Numeral) : Bool :=
  match x.scale with
  | .ofNat k => x.digits * 10 ^ k ≤ maxSafeInteger
  | .negSucc k => x.digits ≤ maxSafeInteger * 10 ^ (k + 1)

/-- Whether a string has the numeric form that Joi converts to a number. -/
def numericForm (s : String) : Bool :=
  (numeral s).isSome

/-- The rule `Joi.number()` with Joi's default conversion: a number within the
safe-integer range, or a string in numeric form whose value is within that
range.  For a string with a fraction or an exponent Joi further compares its
significant digits with those of the parsed double; that comparison is a
property of floating-point parsing and is not part of this rule. -/
def number : Rule
  | .undefined => true
  | .num n => n.natAbs ≤ maxSafeInteger
  | .str s =>
    match numeral s with
    | some x => x.safe
    | none => false
  | _ => false

/-- The rule `Joi.string()`: a string other than the empty string. -/
def string : Rule
  | .undefined => true
  | .str s => s != ""
  | _ => false

/-- The rule `Joi.object({...})`: an object each of whose listed keys passes
its rule. -/
def object (keys : List (String × Rule)) : Rule
  | .undefined => true
  | .obj fields => keys.all fun kr => kr.2 ((JsValue.obj fields).get kr.1)
  | _ => false

/-- The modifier `.required()`: the value must be present. -/
def required (r : Rule) : Rule
  | .undefined => false
  | v => r v

/-- The modifier `.allow(null)`: `null` is accepted as well. -/
def allowNull (r : Rule) : Rule
  | .null => true
  | v => r v

end Joi

/-- The response schema (lines 8-21). -/
def schema : Joi.Rule :=
  Joi.required (Joi.object [
    ("data", Joi.required (Joi.object [
      ("viewer", Joi.required (Joi.object [
        ("gist", Joi.allowNull (Joi.object [
          ("stargazerCount", Joi.required Joi.number),
          ("url", Joi.required Joi.string),
          ("owner", Joi.required (Joi.object [
            ("login", Joi.required Joi.string)])),
          ("name", Joi.required Joi.string)]))]))]))])

/-- The module-level `documentation` template (lines 23-25); the imported
`commonDocumentation` fragment is a parameter. -/
def documentation (commonDocumentation : String) : String :=
  commonDocumentation ++
    "\n<p>This badge shows the number of stargazers for a gist. Gist id is accepted as input and \x27gist not found\x27 is returned if the gist is not found for the given gist id.\n</p>"

/-! ## Static class members

Static fields are initialised in source order.  While an initialiser runs,
`this` is the class under construction: a static read on it finds the own
fields defined so far and otherwise the field inherited from the base class. -/

/-- Static fields of a class, by name. -/
abbrev Statics := List (String × JsValue)

/-- The static read `this.k` inside a static initialiser: own fields defined so
far shadow the inherited ones. -/
def staticRead (own inherited : Statics) (k : String) : JsValue :=
  match own.lookup k with
  | some v => v
  | none => (inherited.lookup k).getD .undefined

namespace GithubGistStars

/-- Initialiser of `static category` (line 28). -/
def category : JsValue := .str "social"

/-- Initialiser of `static route` (lines 30-33). -/
def route : JsValue :=
  .obj [("base", .str "github/stars/gists"), ("pattern", .str ":gistId")]

/-- Initialiser of `static examples` (lines 35-46), evaluated with the static
fields `own` defined before it and the `inherited` ones. -/
def examples (commonDocumentation : String) (own inherited : Statics) :
    Except JsError JsValue := do
  let label ← member (staticRead own inherited "defaultBadgeData") "label"
  return .arr [
    .obj [
      ("title", .str "Github Gist stars"),
      ("namedParams", .obj [("gistId", .str "47a4d00457a92aa426dbd48a18776322")]),
      ("staticPreview", .obj [
        ("label", label),
        ("message", .str (metric (.num 29))),
        ("style", .str "social")]),
      ("documentation", .str (documentation commonDocumentation))]]

/-- Initialiser of `static defaultBadgeData` (lines 48-52). -/
def defaultBadgeData : JsValue :=
  .obj [("label", .str "Stars"), ("color", .str "blue"), ("namedLogo", .str "github")]

/-- Evaluation of the static fields of the class body, in source order:
`category`, `route`, `examples`, `defaultBadgeData`.  The result is the list
of own static fields of the class. -/
def staticFields (commonDocumentation : String) (inherited : Statics) :
    Except JsError Statics := do
  let own : Statics := []
  let own := own ++ [("category", category)]
  let own := own ++ [("route", route)]
  let ex ← examples commonDocumentation own inherited
  let own := own ++ [("examples", ex)]
  let own := own ++ [("defaultBadgeData", defaultBadgeData)]
  return own

/-- The `label` of the static preview of the first documentation example of
an evaluated class: `examples[0].staticPreview.label`. -/
def previewLabel (own : Statics) : JsValue :=
  match (JsValue.obj own).get "examples" with
  | .arr (e :: _) => (e.get "staticPreview").get "label"
  | _ => .undefined

/-- The `message` of the static preview of the first documentation example. -/
def previewMessage (own : Statics) : JsValue :=
  match (JsValue.obj own).get "examples" with
  | .arr (e :: _) => (e.get "staticPreview").get "message"
  | _ => .undefined

/-- The `namedParams` of the first documentation example. -/
def exampleNamedParams (own : Statics) : JsValue :=
  match (JsValue.obj own).get "examples" with
  | .arr (e :: _) => e.get "namedParams"
  | _ => .undefined

/-! ## Operations -/

/-- The badge description returned by `render`: `{ message, link }`. -/
structure Badge where
  message : String
  link : List JsValue
  deriving DecidableEq

/-- The object returned by `transform`:
`{ stargazerCount, url, stargazers }`. -/
structure Transformed where
  stargazerCount : JsValue
  url : JsValue
  stargazers : String
  deriving DecidableEq

/-- The argument of `_requestGraphql`: `{ query, variables, schema }`; the
field `vars` is its `variables`. -/
structure GraphqlRequest where
  query : String
  vars : JsValue
  schema : Joi.Rule

/-- The GraphQL document of `fetch` (lines 60-73), whitespace normalised. -/
def gistQuery : String :=
  "query ($gistId: String!) \x7b viewer \x7b gist(name: $gistId) \x7b stargazerCount url name owner \x7b login \x7d \x7d \x7d \x7d"

/-- The static method `render` (lines 54-56); the arguments are the three
destructured properties of its parameter. -/
def render (stargazerCount url stargazers : JsValue) : Badge :=
  { message := metric stargazerCount, link := [url, stargazers] }

/-- The method `fetch` (lines 58-80).  The inherited `this._requestGraphql` is
the parameter `requestGraphql`. -/
def fetch (requestGraphql : GraphqlRequest → Except JsError JsValue) (gistId : String) :
    Except JsError JsValue := do
  let data ← requestGraphql {
    query := gistQuery,
    vars := .obj [("gistId", .str gistId)],
    schema := schema }
  return data

/-- The static method `transform` (lines 82-103); the argument is the `data`
property destructured from its parameter, that is, the fetched response. -/
def transform (data : JsValue) : Except JsError Transformed := do
  let d ← member data "data"
  let viewer ← member d "viewer"
  let gist ← member viewer "gist"
  if !gist.truthy then
    throw (.NotFound "gist not found")
  let stargazerCount ← member gist "stargazerCount"
  let url ← member gist "url"
  let name ← member gist "name"
  let owner ← member gist "owner"
  let login ← member owner "login"
  let stargazers := "https://gist.github.com/" ++ login.toStr ++ "/" ++ name.toStr ++ "/stargazers"
  return { stargazerCount := stargazerCount, url := url, stargazers := stargazers }

/-- The method `handle` (lines 105-112). -/
def handle (requestGraphql : GraphqlRequest → Except JsError JsValue) (gistId : String) :
    Except JsError Badge := do
  let data ← fetch requestGraphql gistId
  let t ← transform data
  return render t.stargazerCount t.url (.str t.stargazers)

end GithubGistStars

/-- Modelled from the spec: the inherited `_requestGraphql` of
`GithubAuthV4Service` (`github-auth-service.js`), which is not among the
sources.  The spec says the collaborator owns transport and authentication,
that a transport error is propagated unchanged, and that the result "must
conform to the Raw API Response schema; schema violation fails with a
SchemaValidationError-equivalent kind".  `transport` is the network exchange:
it yields the parsed JSON body or the transport error.  An accepted body is
returned as received; the converted copy that validation produces is not
modelled. -/
def _requestGraphql (transport : String → JsValue → Except JsError JsValue)
    (req : GithubGistStars.GraphqlRequest) : Except JsError JsValue := do
  let body ← transport req.query req.vars
  if req.schema body then
    return body
  else
    throw .Validation

/-- The gist of a response: `response.data.viewer.gist`, `undefined` when any
step is absent. -/
def viewerGist (response : JsValue) : JsValue :=
  ((response.get "data").get "viewer").get "gist"

/-- The gist of the end-to-end scenario of the spec. -/
def scenarioGistFields : List (String × JsValue) :=
  [("stargazerCount", .num 29),
    ("url", .str "https://gist.github.com/x/abc"),
    ("name", .str "abc"),
    ("owner", .obj [("login", .str "x")])]

/-- The end-to-end scenario response of the spec. -/
def scenarioResponse : JsValue :=
  .obj [("data", .obj [("viewer", .obj [("gist", .obj scenarioGistFields)])])]

/-- A response whose gist is `null`. -/
def nullGistResponse : JsValue :=
  .obj [("data", .obj [("viewer", .obj [("gist", .null)])])]

/-- A response whose gist object lacks `url`. -/
def missingUrlResponse : JsValue :=
  .obj [("data", .obj [("viewer", .obj [("gist", .obj [
    ("stargazerCount", .num 29),
    ("name", .str "abc"),
    ("owner", .obj [("login", .str "x")])])])])]

/-- The gist of a response whose `stargazerCount` is the string "29". -/
def numericCountGistFields : List (String × JsValue) :=
  [("stargazerCount", .str "29"),
    ("url", .str "https://gist.github.com/x/abc"),
    ("name", .str "abc"),
    ("owner", .obj [("login", .str "x")])]

/-- A response whose `stargazerCount` is the string "29". -/
def numericCountResponse : JsValue :=
  .obj [("data", .obj [("viewer", .obj [("gist", .obj numericCountGistFields)])])]

/-- Whether a value is a number. -/
def isNumber : JsValue → Bool
  | .num _ => true
  | _ => false

/-- Whether a value is a string. -/
def isString : JsValue → Bool
  | .str _ => true
  | _ => false

/-- Whether a value is a number or a string in numeric form. -/
def isNumberOrNumericString : JsValue → Bool
  | .num _ => true
  | .str s => Joi.numericForm s
  | _ => false

/-- The raw-response invariant in the words of the spec's data model, "if gist
is non-null, all listed fields are required and must match their declared
types": `stargazerCount` a number, `url` a string, `name` a string and
`owner.login` a string. -/
def gistFieldsTyped (gist : JsValue) : Bool :=
  isNumber (gist.get "stargazerCount") &&
  isString (gist.get "url") &&
  isString (gist.get "name") &&
  isString ((gist.get "owner").get "login")

/-- The same invariant with the count as the schema takes it: `stargazerCount`
a number or a string in numeric form, `url` a string, `name` a string and
`owner.login` a string, all present. -/
def gistFieldsPresent (gist : JsValue) : Bool :=
  isNumberOrNumericString (gist.get "stargazerCount") &&
  isString (gist.get "url") &&
  isString (gist.get "name") &&
  isString ((gist.get "owner").get "login")

/-- The request `fetch` hands to the collaborator for a gist identifier. -/
def gistRequest (gistId : String) : GithubGistStars.GraphqlRequest :=
  { query := GithubGistStars.gistQuery,
    vars := .obj [("gistId", .str gistId)],
    schema := schema }

/-! ## Basic facts about values -/

theorem JsValue.isNullish_of_get_ne_undefined {v : JsValue} {k : String}
    (h : v.get k ≠ .undefined) : v.isNullish = false := by
  cases v <;> simp_all [JsValue.get, JsValue.isNullish]

theorem member_of_not_nullish {v : JsValue} (k : String) (h : v.isNullish = false) :
    member v k = .ok (v.get k) := by
  simp [member, h]

/-- The three destructuring steps of `transform` succeed as soon as the
response has a `data.viewer` that is neither `null` nor `undefined`. -/
theorem transform_of_viewer {data : JsValue}
    (hv : ((data.get "data").get "viewer").isNullish = false) :
    GithubGistStars.transform data =
      if (viewerGist data).truthy then
        (do
          let owner ← member (viewerGist data) "owner"
          let login ← member owner "login"
          pure {
            stargazerCount := (viewerGist data).get "stargazerCount",
            url := (viewerGist data).get "url",
            stargazers := "https://gist.github.com/" ++ login.toStr ++ "/" ++
              ((viewerGist data).get "name").toStr ++ "/stargazers" })
      else .error (.NotFound "gist not found") := by
  have hd : (data.get "data").isNullish = false :=
    JsValue.isNullish_of_get_ne_undefined (by intro h; rw [h] at hv; simp [JsValue.isNullish] at hv)
  have h0 : data.isNullish = false :=
    JsValue.isNullish_of_get_ne_undefined (by intro h; rw [h] at hd; simp [JsValue.isNullish] at hd)
  by_cases ht : (viewerGist data).truthy = true
  · have hn : (viewerGist data).isNullish = false := by
      cases hg : viewerGist data <;> simp_all [JsValue.truthy, JsValue.isNullish]
    simp only [viewerGist] at ht hn ⊢
    simp [GithubGistStars.transform, member, h0, hd, hv, hn, ht, bind, Except.bind, pure,
      Except.pure]
  · simp only [viewerGist] at ht ⊢
    simp [GithubGistStars.transform, member, h0, hd, hv, ht, bind, Except.bind, throw, throwThe,
      MonadExceptOf.throw]

/-- A response whose gist is present has a `data.viewer` object. -/
theorem viewer_of_gist (data : JsValue) (h : viewerGist data ≠ .undefined) :
    ((data.get "data").get "viewer").isNullish = false :=
  JsValue.isNullish_of_get_ne_undefined h

/-! ## Properties of `transform`, `render` and `handle` -/

/-- With a `null` gist the only branch of `transform` throws. -/
theorem transform_of_null {data : JsValue} (h : viewerGist data = .null) :
    GithubGistStars.transform data = .error (.NotFound "gist not found") := by
  have hv := viewer_of_gist data (by rw [h]; simp)
  rw [transform_of_viewer hv, h]; simp [JsValue.truthy]

/-- With a gist object whose `name` and `owner.login` are strings, `transform`
returns the two fields it copies and the derived stargazers url. -/
theorem transform_of_gist_obj {data : JsValue} {fields ownerFields : List (String × JsValue)}
    {name login : String}
    (hgist : viewerGist data = .obj fields)
    (hname : (JsValue.obj fields).get "name" = .str name)
    (howner : (JsValue.obj fields).get "owner" = .obj ownerFields)
    (hlogin : (JsValue.obj ownerFields).get "login" = .str login) :
    GithubGistStars.transform data = .ok {
      stargazerCount := (JsValue.obj fields).get "stargazerCount",
      url := (JsValue.obj fields).get "url",
      stargazers := "https://gist.github.com/" ++ login ++ "/" ++ name ++ "/stargazers" } := by
  have hv := viewer_of_gist data (by rw [hgist]; simp)
  rw [transform_of_viewer hv, hgist]
  simp [JsValue.truthy, member, JsValue.isNullish, howner, hlogin, hname, JsValue.toStr, bind,
    Except.bind, pure, Except.pure]

/-- C1: for every response whose `data.viewer.gist` is `null`, `transform`
fails with the `NotFound` error whose `prettyMessage` is exactly
"gist not found", whatever else the response holds, and so returns no value. -/
theorem transform_null_gist (data : JsValue) (h : viewerGist data = .null) :
    GithubGistStars.transform data = .error (.NotFound "gist not found") ∧
      ∀ t, GithubGistStars.transform data ≠ .ok t := by
  have ht := transform_of_null h
  exact ⟨ht, fun t => by rw [ht]; simp⟩

theorem transform_null_gist_witness :
    viewerGist (.obj [("data", .obj [("viewer", .obj [("gist", .null)]), ("extra", .num 7)])])
        = .null ∧
      GithubGistStars.transform
          (.obj [("data", .obj [("viewer", .obj [("gist", .null)]), ("extra", .num 7)])])
        = .error (.NotFound "gist not found") :=
  ⟨by decide, (transform_null_gist _ (by decide)).1⟩

/-- C2: for every response whose `data.viewer.gist` is a non-null gist object
with a string `name` and an `owner` object with a string `login`, `transform`
succeeds and returns exactly `{stargazerCount, url, stargazers}`: the gist's
`stargazerCount` and `url` unchanged, and `stargazers` the string
"https://gist.github.com/" ++ login ++ "/" ++ name ++ "/stargazers". -/
theorem transform_gist (data : JsValue) (fields ownerFields : List (String × JsValue))
    (name login : String)
    (hgist : viewerGist data = .obj fields)
    (hname : (JsValue.obj fields).get "name" = .str name)
    (howner : (JsValue.obj fields).get "owner" = .obj ownerFields)
    (hlogin : (JsValue.obj ownerFields).get "login" = .str login) :
    GithubGistStars.transform data = .ok {
      stargazerCount := (JsValue.obj fields).get "stargazerCount",
      url := (JsValue.obj fields).get "url",
      stargazers := "https://gist.github.com/" ++ login ++ "/" ++ name ++ "/stargazers" } :=
  transform_of_gist_obj hgist hname howner hlogin

theorem transform_gist_witness :
    viewerGist scenarioResponse = .obj scenarioGistFields ∧
      GithubGistStars.transform scenarioResponse = .ok {
        stargazerCount := .num 29,
        url := .str "https://gist.github.com/x/abc",
        stargazers := "https://gist.github.com/x/abc/stargazers" } :=
  ⟨by decide,
    (transform_gist scenarioResponse scenarioGistFields [("login", .str "x")] "abc" "x"
      (by decide) (by decide) (by decide) (by decide)).trans (by decide)⟩

/-- C3: `render` is a function of its three inputs alone: for every
`stargazerCount`, `url` and `stargazers` it returns exactly
`{message: metric(stargazerCount), link: [url, stargazers]}`, the gist url
first and the stargazers url second, so that equal inputs give equal
outputs. -/
theorem render_eq (stargazerCount url stargazers : JsValue) :
    GithubGistStars.render stargazerCount url stargazers =
        { message := metric stargazerCount, link := [url, stargazers] } ∧
      (GithubGistStars.render stargazerCount url stargazers).link.length = 2 ∧
      ∀ c u s : JsValue, c = stargazerCount ∧ u = url ∧ s = stargazers →
        GithubGistStars.render c u s = GithubGistStars.render stargazerCount url stargazers := by
  refine ⟨rfl, rfl, ?_⟩
  rintro c u s ⟨rfl, rfl, rfl⟩
  rfl

/-- C4: whenever the request made by `fetch` for a gist identifier yields a
response with a non-null gist `{stargazerCount, url, name, owner: {login}}`,
`handle` returns `{message: metric(stargazerCount), link: [url, stargazers]}`
with `stargazers` the string "https://gist.github.com/{login}/{name}/stargazers";
`handle` is `render` after `transform` after `fetch`; and for the gist
identifier "47a4d00457a92aa426dbd48a18776322" with the scenario response the
result is `{message: "29", link: ["https://gist.github.com/x/abc",
"https://gist.github.com/x/abc/stargazers"]}`. -/
theorem handle_gist (requestGraphql : GithubGistStars.GraphqlRequest → Except JsError JsValue)
    (gistId : String) (response : JsValue) (fields ownerFields : List (String × JsValue))
    (name login : String)
    (hfetch : GithubGistStars.fetch requestGraphql gistId = .ok response)
    (hgist : viewerGist response = .obj fields)
    (hname : (JsValue.obj fields).get "name" = .str name)
    (howner : (JsValue.obj fields).get "owner" = .obj ownerFields)
    (hlogin : (JsValue.obj ownerFields).get "login" = .str login) :
    GithubGistStars.handle requestGraphql gistId = .ok {
        message := metric ((JsValue.obj fields).get "stargazerCount"),
        link := [(JsValue.obj fields).get "url",
          .str ("https://gist.github.com/" ++ login ++ "/" ++ name ++ "/stargazers")] } ∧
      GithubGistStars.handle requestGraphql gistId =
        (GithubGistStars.fetch requestGraphql gistId >>= fun data =>
          GithubGistStars.transform data >>= fun t =>
            pure (GithubGistStars.render t.stargazerCount t.url (.str t.stargazers))) ∧
      (∀ rq : GithubGistStars.GraphqlRequest → Except JsError JsValue,
        GithubGistStars.fetch rq "47a4d00457a92aa426dbd48a18776322" = .ok scenarioResponse →
        GithubGistStars.handle rq "47a4d00457a92aa426dbd48a18776322" = .ok {
          message := "29",
          link := [.str "https://gist.github.com/x/abc",
            .str "https://gist.github.com/x/abc/stargazers"] }) := by
  refine ⟨?_, rfl, ?_⟩
  · unfold GithubGistStars.handle
    rw [hfetch]
    simp [transform_of_gist_obj hgist hname howner hlogin,
      GithubGistStars.render, bind, Except.bind, pure, Except.pure]
  · intro rq hrq
    unfold GithubGistStars.handle
    rw [hrq]
    decide

theorem handle_gist_witness :
    GithubGistStars.fetch (fun _ => .ok scenarioResponse) "47a4d00457a92aa426dbd48a18776322"
        = .ok scenarioResponse ∧
      GithubGistStars.handle (fun _ => .ok scenarioResponse) "47a4d00457a92aa426dbd48a18776322"
        = .ok {
          message := metric (.num 29),
          link := [.str "https://gist.github.com/x/abc",
            .str "https://gist.github.com/x/abc/stargazers"] } :=
  ⟨by decide,
    (handle_gist (fun _ => .ok scenarioResponse) "47a4d00457a92aa426dbd48a18776322"
      scenarioResponse scenarioGistFields [("login", .str "x")] "abc" "x"
      (by decide) (by decide) (by decide) (by decide) (by decide)).1.trans (by decide)⟩

/-- C7: whenever the collaborator's request fails with an error `e` (a
transport failure or a schema-validation failure alike), `fetch` fails with
exactly `e` and `handle` fails with exactly `e`: the error is neither caught,
wrapped nor replaced, and no result of `transform` or `render` takes its
place. -/
theorem request_failure_propagates
    (requestGraphql : GithubGistStars.GraphqlRequest → Except JsError JsValue)
    (gistId : String) (e : JsError)
    (h : requestGraphql (gistRequest gistId) = .error e) :
    GithubGistStars.fetch requestGraphql gistId = .error e ∧
      GithubGistStars.handle requestGraphql gistId = .error e := by
  have hf : GithubGistStars.fetch requestGraphql gistId = .error e := by
    unfold GithubGistStars.fetch
    unfold gistRequest at h
    rw [h]
    rfl
  refine ⟨hf, ?_⟩
  unfold GithubGistStars.handle
  rw [hf]
  rfl

theorem request_failure_propagates_witness :
    _requestGraphql (fun _ _ => .error (.Transport "socket hang up")) (gistRequest "abc")
        = .error (.Transport "socket hang up") ∧
      GithubGistStars.fetch (_requestGraphql (fun _ _ => .error (.Transport "socket hang up")))
        "abc" = .error (.Transport "socket hang up") ∧
      GithubGistStars.handle (_requestGraphql (fun _ _ => .error (.Transport "socket hang up")))
        "abc" = .error (.Transport "socket hang up") :=
  ⟨by decide, request_failure_propagates _ "abc" (.Transport "socket hang up") (by decide)⟩

/-- C8: spec-modelled formatter.  `metric` maps the boundary values 999 to
"999" and 1000 to "1k", so `render` with `stargazerCount` 999 yields the
message "999" and with `stargazerCount` 1000 the message "1k". -/
theorem metric_boundary :
    metric (.num 999) = "999" ∧ metric (.num 1000) = "1k" ∧
      ∀ url stargazers : JsValue,
        (GithubGistStars.render (.num 999) url stargazers).message = "999" ∧
        (GithubGistStars.render (.num 1000) url stargazers).message = "1k" := by
  refine ⟨by decide, by decide, fun url stargazers => ⟨?_, ?_⟩⟩
  · show metric (.num 999) = "999"
    decide
  · show metric (.num 1000) = "1k"
    decide

/-! ## Properties of the schema -/

theorem Joi.required_number_true {v : JsValue} (h : Joi.required Joi.number v = true) :
    isNumberOrNumericString v = true := by
  cases v with
  | num n => rfl
  | str s =>
    have hs : (match Joi.numeral s with | some x => x.safe | none => false) = true := h
    show (Joi.numeral s).isSome = true
    cases hn : Joi.numeral s with
    | none => rw [hn] at hs; exact absurd hs (by simp)
    | some x => rfl
  | _ => exact absurd h (by simp [Joi.required, Joi.number])

theorem Joi.required_string_true {v : JsValue} (h : Joi.required Joi.string v = true) :
    isString v = true := by
  cases v with
  | str s => rfl
  | _ => exact absurd h (by simp [Joi.required, Joi.string])

theorem Joi.required_owner_true {o : JsValue}
    (h : Joi.required (Joi.object [("login", Joi.required Joi.string)]) o = true) :
    isString (o.get "login") = true := by
  cases o with
  | obj f =>
    simp only [Joi.required, Joi.object, List.all_cons, List.all_nil, Bool.and_true] at h
    exact Joi.required_string_true h
  | _ => exact absurd h (by simp [Joi.required, Joi.object])

theorem JsValue.exists_obj_of_get_ne_undefined {v : JsValue} {k : String}
    (h : v.get k ≠ .undefined) : ∃ f, v = .obj f := by
  cases v <;> first | exact ⟨_, rfl⟩ | exact absurd rfl h

theorem Joi.required_object_obj (keys : List (String × Joi.Rule))
    (f : List (String × JsValue)) :
    Joi.required (Joi.object keys) (.obj f) =
      keys.all (fun kr => kr.2 ((JsValue.obj f).get kr.1)) := rfl

theorem Joi.allowNull_object_obj (keys : List (String × Joi.Rule))
    (f : List (String × JsValue)) :
    Joi.allowNull (Joi.object keys) (.obj f) =
      keys.all (fun kr => kr.2 ((JsValue.obj f).get kr.1)) := rfl

/-- On a response whose gist is an object, the schema accepts only when the
four gist fields are present with the types it takes. -/
theorem schema_gist_fields {body : JsValue} {fields : List (String × JsValue)}
    (hg : viewerGist body = .obj fields) (h : schema body = true) :
    gistFieldsPresent (.obj fields) = true := by
  unfold viewerGist at hg
  obtain ⟨f2, hv⟩ := JsValue.exists_obj_of_get_ne_undefined
    (v := (body.get "data").get "viewer") (k := "gist") (by rw [hg]; simp)
  obtain ⟨f1, hd⟩ := JsValue.exists_obj_of_get_ne_undefined
    (v := body.get "data") (k := "viewer") (by rw [hv]; simp)
  obtain ⟨f0, rfl⟩ := JsValue.exists_obj_of_get_ne_undefined
    (v := body) (k := "data") (by rw [hd]; simp)
  rw [hd] at hv
  rw [hd, hv] at hg
  unfold schema at h
  rw [Joi.required_object_obj] at h
  simp only [List.all_cons, List.all_nil, Bool.and_true] at h
  rw [hd, Joi.required_object_obj] at h
  simp only [List.all_cons, List.all_nil, Bool.and_true] at h
  rw [hv, Joi.required_object_obj] at h
  simp only [List.all_cons, List.all_nil, Bool.and_true] at h
  rw [hg, Joi.allowNull_object_obj] at h
  simp only [List.all_cons, List.all_nil, Bool.and_true, Bool.and_eq_true] at h
  obtain ⟨h1, h2, h3, h4⟩ := h
  unfold gistFieldsPresent
  simp only [Bool.and_eq_true]
  exact ⟨⟨⟨Joi.required_number_true h1, Joi.required_string_true h2⟩,
    Joi.required_string_true h4⟩, Joi.required_owner_true h3⟩

theorem Joi.exists_obj_of_required_object {keys : List (String × Joi.Rule)} {v : JsValue}
    (h : Joi.required (Joi.object keys) v = true) : ∃ f, v = .obj f := by
  cases v <;> first | exact ⟨_, rfl⟩ | exact absurd h (by simp [Joi.required, Joi.object])

theorem Joi.cases_of_allowNull_object {keys : List (String × Joi.Rule)} {v : JsValue}
    (h : Joi.allowNull (Joi.object keys) v = true) :
    v = .undefined ∨ v = .null ∨ ∃ f, v = .obj f := by
  cases v <;>
    first
    | exact Or.inl rfl
    | exact Or.inr (Or.inl rfl)
    | exact Or.inr (Or.inr ⟨_, rfl⟩)
    | exact absurd h (by simp [Joi.allowNull, Joi.object])

/-- A response accepted by the schema has a `data.viewer` object, and its gist
is absent, `null`, or an object with the four fields present and typed. -/
theorem schema_accepts_cases {body : JsValue} (h : schema body = true) :
    ((body.get "data").get "viewer").isNullish = false ∧
      (viewerGist body = .undefined ∨ viewerGist body = .null ∨
        ∃ fields, viewerGist body = .obj fields ∧ gistFieldsPresent (.obj fields) = true) := by
  have h0 := h
  unfold schema at h0
  obtain ⟨f0, rfl⟩ := Joi.exists_obj_of_required_object h0
  rw [Joi.required_object_obj] at h0
  simp only [List.all_cons, List.all_nil, Bool.and_true] at h0
  obtain ⟨f1, hd⟩ := Joi.exists_obj_of_required_object h0
  rw [hd, Joi.required_object_obj] at h0
  simp only [List.all_cons, List.all_nil, Bool.and_true] at h0
  obtain ⟨f2, hv⟩ := Joi.exists_obj_of_required_object h0
  rw [hv] at h0
  rw [Joi.required_object_obj] at h0
  simp only [List.all_cons, List.all_nil, Bool.and_true] at h0
  have hgist : viewerGist (.obj f0) = (JsValue.obj f2).get "gist" := by
    unfold viewerGist
    rw [hd, hv]
  refine ⟨by rw [hd, hv]; rfl, ?_⟩
  rcases Joi.cases_of_allowNull_object h0 with hu | hn | ⟨fields, hf⟩
  · exact Or.inl (hgist.trans hu)
  · exact Or.inr (Or.inl (hgist.trans hn))
  · refine Or.inr (Or.inr ⟨fields, hgist.trans hf, ?_⟩)
    exact schema_gist_fields (hgist.trans hf) h

/-- On a gist object with the four fields present and typed, `transform`
returns a value. -/
theorem transform_ok_of_fields {data : JsValue} {fields : List (String × JsValue)}
    (hg : viewerGist data = .obj fields) (hp : gistFieldsPresent (.obj fields) = true) :
    ∃ t, GithubGistStars.transform data = .ok t := by
  have hv := viewer_of_gist data (by rw [hg]; simp)
  have ho : ((JsValue.obj fields).get "owner").isNullish = false :=
    JsValue.isNullish_of_get_ne_undefined (k := "login") (by
      intro hl
      unfold gistFieldsPresent at hp
      rw [hl] at hp
      simp [isString] at hp)
  have hgn : (JsValue.obj fields).isNullish = false := rfl
  rw [transform_of_viewer hv, hg]
  simp [JsValue.truthy, member_of_not_nullish _ hgn, member_of_not_nullish _ ho, bind,
    Except.bind, pure, Except.pure]

/-- On a response accepted by the schema, `transform` fails with the
"gist not found" error when the gist is `null` or absent and returns a value
otherwise. -/
theorem transform_of_schema {body : JsValue} (h : schema body = true) :
    ((viewerGist body = .undefined ∨ viewerGist body = .null) ∧
        GithubGistStars.transform body = .error (.NotFound "gist not found")) ∨
      ((viewerGist body ≠ .undefined ∧ viewerGist body ≠ .null) ∧
        ∃ t, GithubGistStars.transform body = .ok t) := by
  obtain ⟨hv, hu | hn | ⟨fields, hf, hp⟩⟩ := schema_accepts_cases h
  · exact Or.inl ⟨Or.inl hu, by rw [transform_of_viewer hv, hu]; simp [JsValue.truthy]⟩
  · exact Or.inl ⟨Or.inr hn, by rw [transform_of_viewer hv, hn]; simp [JsValue.truthy]⟩
  · exact Or.inr ⟨by rw [hf]; simp, transform_ok_of_fields hf hp⟩

/-- The modelled collaborator only returns bodies its schema accepts. -/
theorem requestGraphql_validates (transport : String → JsValue → Except JsError JsValue)
    (req : GithubGistStars.GraphqlRequest) (body : JsValue)
    (h : _requestGraphql transport req = .ok body) : req.schema body = true := by
  unfold _requestGraphql at h
  cases ht : transport req.query req.vars with
  | error e => rw [ht] at h; simp [bind, Except.bind] at h
  | ok b =>
    rw [ht] at h
    by_cases hs : req.schema b = true
    · simp [bind, Except.bind, hs, pure, Except.pure] at h
      rw [← h]; exact hs
    · simp [bind, Except.bind, hs, throw, throwThe, MonadExceptOf.throw] at h

theorem fetch_eq (requestGraphql : GithubGistStars.GraphqlRequest → Except JsError JsValue)
    (gistId : String) :
    GithubGistStars.fetch requestGraphql gistId = requestGraphql (gistRequest gistId) := by
  unfold GithubGistStars.fetch gistRequest
  cases requestGraphql _ <;> rfl

/-! ## Validation, absence and the documentation example -/

/-- C5, the claim as stated, fails: the schema accepts a response whose gist
has the string "29" for `stargazerCount`, which is not a number, because
`Joi.number()` converts a string in numeric form. -/
theorem schema_accepts_numeric_string_count :
    viewerGist numericCountResponse = .obj numericCountGistFields ∧
      (JsValue.obj numericCountGistFields).get "stargazerCount" = .str "29" ∧
      schema numericCountResponse = true ∧
      gistFieldsTyped (.obj numericCountGistFields) = false := by
  decide

/-- C5, as amended: for every response whose `data.viewer.gist` is a non-null
object, the schema accepts it only if `stargazerCount` (a number, or a string
in numeric form), `url` (a string), `name` (a string) and `owner.login` (a
string) are all present; a response in which one of them is missing or has
another type is rejected by the schema, so a collaborator that returns only
responses the schema accepts never returns it to `fetch`, the modelled
collaborator fails with the validation error, and every badge `handle` returns
comes from a gist with all four fields: no partial badge is produced. -/
theorem schema_requires_gist_fields
    (requestGraphql : GithubGistStars.GraphqlRequest → Except JsError JsValue)
    (gistId : String)
    (hvalid : ∀ req body, requestGraphql req = .ok body → req.schema body = true)
    (response : JsValue) (fields : List (String × JsValue))
    (hgist : viewerGist response = .obj fields) :
    (schema response = true → gistFieldsPresent (.obj fields) = true) ∧
      (gistFieldsPresent (.obj fields) = false →
        schema response = false ∧
        GithubGistStars.fetch requestGraphql gistId ≠ .ok response ∧
        ∀ transport : String → JsValue → Except JsError JsValue,
          transport GithubGistStars.gistQuery (.obj [("gistId", .str gistId)]) = .ok response →
          GithubGistStars.fetch (_requestGraphql transport) gistId = .error .Validation ∧
          GithubGistStars.handle (_requestGraphql transport) gistId = .error .Validation) ∧
      (∀ badge, GithubGistStars.handle requestGraphql gistId = .ok badge →
        ∃ r f, GithubGistStars.fetch requestGraphql gistId = .ok r ∧
          viewerGist r = .obj f ∧ gistFieldsPresent (.obj f) = true) := by
  have hschema : ∀ r, GithubGistStars.fetch requestGraphql gistId = .ok r →
      schema r = true := by
    intro r hf
    rw [fetch_eq] at hf
    exact hvalid _ _ hf
  refine ⟨schema_gist_fields hgist, fun hp => ?_, fun badge hb => ?_⟩
  · have hrej : schema response = false := by
      cases hs : schema response with
      | false => rfl
      | true => rw [schema_gist_fields hgist hs] at hp; exact absurd hp (by simp)
    refine ⟨hrej, fun hf => ?_, fun transport hbody => ?_⟩
    · rw [hschema response hf] at hrej
      exact absurd hrej (by simp)
    · have hreq : _requestGraphql transport (gistRequest gistId) = .error .Validation := by
        simp [_requestGraphql, gistRequest, hbody, hrej, bind, Except.bind, throw, throwThe,
          MonadExceptOf.throw]
      have hf : GithubGistStars.fetch (_requestGraphql transport) gistId
          = .error .Validation := by
        rw [fetch_eq, hreq]
      refine ⟨hf, ?_⟩
      unfold GithubGistStars.handle
      rw [hf]
      rfl
  · cases hf : GithubGistStars.fetch requestGraphql gistId with
    | error e =>
      unfold GithubGistStars.handle at hb
      rw [hf] at hb
      simp [bind, Except.bind] at hb
    | ok r =>
      obtain ⟨_, hu | hn | ⟨f, hgf, hpf⟩⟩ := schema_accepts_cases (hschema r hf)
      · unfold GithubGistStars.handle at hb
        rw [hf] at hb
        have ht : GithubGistStars.transform r = .error (.NotFound "gist not found") := by
          rcases transform_of_schema (hschema r hf) with ⟨_, ht⟩ | ⟨⟨hne, _⟩, _⟩
          · exact ht
          · exact absurd hu hne
        simp [bind, Except.bind, ht] at hb
      · unfold GithubGistStars.handle at hb
        rw [hf] at hb
        simp [bind, Except.bind, transform_of_null hn] at hb
      · exact ⟨r, f, rfl, hgf, hpf⟩

theorem schema_requires_gist_fields_witness :
    gistFieldsPresent (viewerGist missingUrlResponse) = false ∧
      schema missingUrlResponse = false ∧
      GithubGistStars.fetch (_requestGraphql (fun _ _ => .ok missingUrlResponse)) "abc"
        ≠ .ok missingUrlResponse ∧
      GithubGistStars.handle (_requestGraphql (fun _ _ => .ok missingUrlResponse)) "abc"
        = .error .Validation :=
  have h := (schema_requires_gist_fields (_requestGraphql (fun _ _ => .ok missingUrlResponse))
    "abc" (requestGraphql_validates _) missingUrlResponse
    [("stargazerCount", .num 29), ("name", .str "abc"), ("owner", .obj [("login", .str "x")])]
    (by decide)).2.1 (by decide)
  ⟨by decide, h.1, h.2.1, (h.2.2 (fun _ _ => .ok missingUrlResponse) rfl).2⟩

/-- C6: with a collaborator that returns only responses accepted by the schema
it is given, `handle` returns a badge if and only if `fetch` succeeds with a
response that has a gist and whose gist is not `null`; when `fetch` succeeds
with a `null` gist, `handle` fails with the `NotFound` error carrying
"gist not found": no badge is substituted. -/
theorem handle_badge_iff
    (requestGraphql : GithubGistStars.GraphqlRequest → Except JsError JsValue)
    (gistId : String)
    (hvalid : ∀ req body, requestGraphql req = .ok body → req.schema body = true) :
    ((∃ badge, GithubGistStars.handle requestGraphql gistId = .ok badge) ↔
        ∃ response, GithubGistStars.fetch requestGraphql gistId = .ok response ∧
          viewerGist response ≠ .undefined ∧ viewerGist response ≠ .null) ∧
      (∀ response, GithubGistStars.fetch requestGraphql gistId = .ok response →
        viewerGist response = .null →
        GithubGistStars.handle requestGraphql gistId = .error (.NotFound "gist not found") ∧
        ∀ badge, GithubGistStars.handle requestGraphql gistId ≠ .ok badge) := by
  have hschema : ∀ response, GithubGistStars.fetch requestGraphql gistId = .ok response →
      schema response = true := by
    intro response hf
    rw [fetch_eq] at hf
    exact hvalid _ _ hf
  refine ⟨⟨?_, ?_⟩, ?_⟩
  · rintro ⟨badge, hb⟩
    cases hf : GithubGistStars.fetch requestGraphql gistId with
    | error e =>
      unfold GithubGistStars.handle at hb
      rw [hf] at hb
      simp [bind, Except.bind] at hb
    | ok response =>
      rcases transform_of_schema (hschema response hf) with ⟨_, ht⟩ | ⟨hne, _⟩
      · unfold GithubGistStars.handle at hb
        rw [hf] at hb
        simp [bind, Except.bind, ht] at hb
      · exact ⟨response, rfl, hne⟩
  · rintro ⟨response, hf, hu, hn⟩
    rcases transform_of_schema (hschema response hf) with ⟨hnull, _⟩ | ⟨_, t, ht⟩
    · rcases hnull with h | h
      · exact absurd h hu
      · exact absurd h hn
    · refine ⟨GithubGistStars.render t.stargazerCount t.url (.str t.stargazers), ?_⟩
      unfold GithubGistStars.handle
      rw [hf]
      simp [ht, bind, Except.bind, pure, Except.pure]
  · intro response hf hnull
    have hh : GithubGistStars.handle requestGraphql gistId
        = .error (.NotFound "gist not found") := by
      unfold GithubGistStars.handle
      rw [hf]
      simp [transform_of_null hnull, bind, Except.bind]
    exact ⟨hh, fun badge => by rw [hh]; simp⟩

theorem handle_badge_iff_witness :
    GithubGistStars.fetch (_requestGraphql (fun _ _ => .ok nullGistResponse)) "abc"
        = .ok nullGistResponse ∧
      viewerGist nullGistResponse = .null ∧
      GithubGistStars.handle (_requestGraphql (fun _ _ => .ok nullGistResponse)) "abc"
        = .error (.NotFound "gist not found") :=
  ⟨by decide, by decide,
    ((handle_badge_iff (_requestGraphql (fun _ _ => .ok nullGistResponse)) "abc"
      (requestGraphql_validates _)).2 nullGistResponse (by decide) (by decide)).1⟩

/-- C10: the schema also accepts a response whose `viewer` object has no
`gist` key; for every response the schema accepts, `transform` fails if and
only if `viewer.gist` is `null` or absent, and then always with the
`NotFound` error "gist not found"; for every other accepted response
`transform` returns a value, so destructuring `owner.login`, `name`, `url`
and `stargazerCount` never throws. -/
theorem schema_optional_gist :
    (∀ viewerFields : List (String × JsValue), viewerFields.lookup "gist" = none →
        schema (.obj [("data", .obj [("viewer", .obj viewerFields)])]) = true) ∧
      ∀ body : JsValue, schema body = true →
        ((∃ e, GithubGistStars.transform body = .error e) ↔
          (viewerGist body = .null ∨ viewerGist body = .undefined)) ∧
        (∀ e, GithubGistStars.transform body = .error e → e = .NotFound "gist not found") ∧
        (viewerGist body ≠ .null → viewerGist body ≠ .undefined →
          ∃ t, GithubGistStars.transform body = .ok t) := by
  constructor
  · intro viewerFields hnone
    unfold schema
    rw [Joi.required_object_obj]
    simp only [List.all_cons, List.all_nil, Bool.and_true]
    have hd : (JsValue.obj [("data", .obj [("viewer", .obj viewerFields)])]).get "data"
        = .obj [("viewer", .obj viewerFields)] := by simp [JsValue.get, List.lookup]
    rw [hd, Joi.required_object_obj]
    simp only [List.all_cons, List.all_nil, Bool.and_true]
    have hv : (JsValue.obj [("viewer", .obj viewerFields)]).get "viewer"
        = .obj viewerFields := by simp [JsValue.get, List.lookup]
    rw [hv, Joi.required_object_obj]
    simp only [List.all_cons, List.all_nil, Bool.and_true]
    have hg : (JsValue.obj viewerFields).get "gist" = .undefined := by
      simp [JsValue.get, hnone]
    rw [hg]
    rfl
  · intro body h
    rcases transform_of_schema h with ⟨hnull, ht⟩ | ⟨⟨hu, hn⟩, t, ht⟩
    · refine ⟨⟨fun _ => hnull.symm, fun _ => ⟨_, ht⟩⟩, ?_, ?_⟩
      · intro e he
        rw [ht] at he
        exact (Except.error.inj he).symm
      · intro hn hu
        rcases hnull with h1 | h1
        · exact absurd h1 hu
        · exact absurd h1 hn
    · refine ⟨⟨?_, ?_⟩, ?_, fun _ _ => ⟨t, ht⟩⟩
      · rintro ⟨e, he⟩
        rw [ht] at he
        exact absurd he (by simp)
      · rintro (h1 | h1)
        · exact absurd h1 hn
        · exact absurd h1 hu
      · intro e he
        rw [ht] at he
        exact absurd he (by simp)

theorem schema_optional_gist_witness :
    schema (.obj [("data", .obj [("viewer", .obj [])])]) = true ∧
      GithubGistStars.transform (.obj [("data", .obj [("viewer", .obj [])])])
        = .error (.NotFound "gist not found") ∧
      schema scenarioResponse = true ∧
      ∃ t, GithubGistStars.transform scenarioResponse = .ok t :=
  ⟨schema_optional_gist.1 [] rfl, by decide, by decide,
    (schema_optional_gist.2 scenarioResponse (by decide)).2.2 (by decide) (by decide)⟩

/-- C9: evaluation of the class body at the documentation example.  Its
`namedParams` are `{gistId: "47a4d00457a92aa426dbd48a18776322"}`, its preview
message is `metric(29)` = "29", and the class declares the default badge label
"Stars"; but the preview label is read from `this.defaultBadgeData` while the
class has not yet defined that field, so it is the label of the inherited
`defaultBadgeData`: `undefined` when the base class has `{}`, and the class
body throws when the base class has none. -/
theorem examples_label_read_before_defined :
    (∀ doc : String,
      (GithubGistStars.staticFields doc [("defaultBadgeData", .obj [])]).map
        (fun own => (GithubGistStars.exampleNamedParams own, GithubGistStars.previewMessage own,
          GithubGistStars.previewLabel own, ((JsValue.obj own).get "defaultBadgeData").get "label"))
        = .ok (.obj [("gistId", .str "47a4d00457a92aa426dbd48a18776322")], .str "29",
            .undefined, .str "Stars")) ∧
      (∀ (doc : String) (inherited : Statics),
        (GithubGistStars.staticFields doc inherited).map GithubGistStars.previewLabel
          = member ((inherited.lookup "defaultBadgeData").getD .undefined) "label") ∧
      (∀ doc : String, GithubGistStars.staticFields doc [] = .error .TypeError) := by
  refine ⟨fun doc => ?_, fun doc inherited => ?_, fun doc => ?_⟩
  · rfl
  · have hown : staticRead ([] ++ [("category", GithubGistStars.category)] ++
        [("route", GithubGistStars.route)]) inherited "defaultBadgeData"
        = (inherited.lookup "defaultBadgeData").getD .undefined := by
      simp [staticRead, List.lookup]
    unfold GithubGistStars.staticFields GithubGistStars.examples
    simp only [hown]
    cases member ((inherited.lookup "defaultBadgeData").getD .undefined) "label" <;> rfl
  · rfl
